import Mathlib

/-!
Shallow embedding of src/sensor-metrics.py.

Numeric values are modelled as exact rationals; the Python float
operations are idealised to exact arithmetic, as sanctioned by the
specification (testable properties hold "within floating-point
rounding").  Python round(x, 1) is modelled by its documented
semantics on exact values: round to the closest multiple of 1/10,
ties toward the even choice.

Device reads are effectful in the source; each sub-sample of the
embedding receives the outcome of every device read it performs
(a value, or the exception the read raises).  Exception propagation
is modelled with Except: a branch of the code that is skipped because
an earlier statement raised corresponds to an early .error return.
Gauge mutation is modelled as the list of (gauge, value) write events
the cycle performs; the cycle-local lists are discarded when an
exception propagates out of read_values, matching their function-local
lifetime in the source.
-/

namespace SensorMetrics

/-- Exceptions that device reads of the source can raise.  The except
clause at line 91 of the source catches exactly ReadTimeoutError and
ChecksumMismatchError; ioError models an OSError from the CPU
thermal-zone file read; other stands for any further exception type. -/
inductive Exc
  | readTimeoutError
  | checksumMismatchError
  | ioError
  | other
deriving DecidableEq, Repr

/-- Whether the except clause at source line 91 catches this exception. -/
def isTransientPmError : Exc → Bool
  | .readTimeoutError => true
  | .checksumMismatchError => true
  | _ => false

/-- Round a rational to the nearest integer, ties to the even integer:
the documented behaviour of Python round on exact values. -/
def roundHalfEven (x : ℚ) : ℤ :=
  if x - ⌊x⌋ < 1/2 then ⌊x⌋
  else if (1 : ℚ)/2 < x - ⌊x⌋ then ⌊x⌋ + 1
  else if ⌊x⌋ % 2 = 0 then ⌊x⌋ else ⌊x⌋ + 1

/-- Python round(x, 1): round to 1 decimal digit. -/
def round1 (x : ℚ) : ℚ := (roundHalfEven (10 * x) : ℚ) / 10

/-- Tuning factor for temperature compensation (source line 43). -/
def temp_factor : ℚ := 9/2

/-- Additive humidity compensation offset (source line 55). -/
def humidity_factor : ℚ := 20

/-- Lines 46 to 50 of the source: compensated temperature to 1dp.
The two device reads the Python function performs (CPU thermal zone,
then bme280.get_temperature) are supplied as the arguments cpu_temp
and raw_temp; the body is the pure computation on their results. -/
def comp_temp (factor cpu_temp raw_temp : ℚ) : ℚ :=
  round1 (raw_temp - ((cpu_temp - raw_temp) / factor))

/-- Lines 58 to 60 of the source: compensated humidity to 1dp, the
raw bme280.get_humidity() reading supplied as raw_humidity. -/
def comp_humidity (factor raw_humidity : ℚ) : ℚ :=
  round1 (raw_humidity + factor)

/-- Lines 108 to 112 of the source: read the CPU temperature file and
divide the integer it holds by 1000.  The argument is the outcome of
the file read (the parsed integer, or the I/O exception it raised);
the function has no handler, so an exception passes through. -/
def get_cpu_temperature (fileRead : Except Exc ℤ) : Except Exc ℚ :=
  match fileRead with
  | .error e => .error e
  | .ok t => .ok ((t : ℚ) / 1000)

/-- Result of gas.read_all() (source line 75). -/
structure GasData where
  oxidising : ℚ
  reducing : ℚ
  nh3 : ℚ
deriving DecidableEq, Repr

/-- Result of pms5003.read(): pm_ug_per_m3(10) and pm_ug_per_m3(2.5). -/
structure PmValues where
  pm10 : ℚ
  pm2 : ℚ
deriving DecidableEq, Repr

/-- Outcomes of every device read one sub-sample iteration performs,
in source order: gas.read_all(), the CPU thermal-zone file read and
bme280.get_temperature() inside comp_temp, bme280.get_humidity()
inside comp_humidity, bme280.get_pressure(), and up to two
pms5003.read() attempts (the second only reached on retry). -/
structure SubInput where
  gasRead : Except Exc GasData
  cpuFile : Except Exc ℤ
  rawTempRead : Except Exc ℚ
  rawHumidityRead : Except Exc ℚ
  rawPressureRead : Except Exc ℚ
  pmRead1 : Except Exc PmValues
  pmRead2 : Except Exc PmValues
deriving Repr

/-- Lines 86 to 96 of the source: the particulate read-with-retry.
Returns the read outcome together with the number of pms5003.reset()
calls issued.  A first-read exception the except clause does not
recognise propagates with no reset; a recognised transient failure
resets once and returns the outcome of the second read unguarded. -/
def pmReadWithRetry (read1 read2 : Except Exc PmValues) :
    Except Exc PmValues × Nat :=
  match read1 with
  | .ok v => (.ok v, 0)
  | .error e => if isTransientPmError e then (read2, 1) else (.error e, 0)

/-- The eight values one successful sub-sample appends to the eight
sequences. -/
structure SubVals where
  gasOx : ℚ
  gasRed : ℚ
  gasNh3 : ℚ
  temp : ℚ
  humidity : ℚ
  pressure : ℚ
  pm10 : ℚ
  pm2 : ℚ
deriving DecidableEq, Repr

/-- Lines 74 to 96 of the source: one iteration of the sub-sample
loop, up to the appends.  Performs the reads in source order; the
first exception not handled by the particulate retry propagates.
Returns the appended values and the number of reset calls. -/
def subStep (inp : SubInput) : Except Exc SubVals × Nat :=
  match inp.gasRead with
  | .error e => (.error e, 0)
  | .ok gasData =>
    match get_cpu_temperature inp.cpuFile with
    | .error e => (.error e, 0)
    | .ok cpuTemp =>
      match inp.rawTempRead with
      | .error e => (.error e, 0)
      | .ok rawTemp =>
        match inp.rawHumidityRead with
        | .error e => (.error e, 0)
        | .ok rawHumidity =>
          match inp.rawPressureRead with
          | .error e => (.error e, 0)
          | .ok rawPressure =>
            match pmReadWithRetry inp.pmRead1 inp.pmRead2 with
            | (.error e, n) => (.error e, n)
            | (.ok pv, n) =>
              (.ok { gasOx := gasData.oxidising / 1000
                     gasRed := gasData.reducing / 1000
                     gasNh3 := gasData.nh3 / 1000
                     temp := comp_temp temp_factor cpuTemp rawTemp
                     humidity := comp_humidity humidity_factor rawHumidity
                     pressure := rawPressure * 100
                     pm10 := pv.pm10
                     pm2 := pv.pm2 }, n)

/-- The eight cycle-local sequences of read_values (lines 64 to 71). -/
structure SampleWindow where
  temps : List ℚ
  humidities : List ℚ
  pressures : List ℚ
  pm10s : List ℚ
  pm2s : List ℚ
  gos : List ℚ
  grs : List ℚ
  gns : List ℚ
deriving DecidableEq, Repr

/-- The eight sequences start empty each cycle. -/
def SampleWindow.empty : SampleWindow := ⟨[], [], [], [], [], [], [], []⟩

/-- One round of appends (lines 76 to 96). -/
def SampleWindow.push (w : SampleWindow) (v : SubVals) : SampleWindow :=
  { temps := w.temps ++ [v.temp]
    humidities := w.humidities ++ [v.humidity]
    pressures := w.pressures ++ [v.pressure]
    pm10s := w.pm10s ++ [v.pm10]
    pm2s := w.pm2s ++ [v.pm2]
    gos := w.gos ++ [v.gasOx]
    grs := w.grs ++ [v.gasRed]
    gns := w.gns ++ [v.gasNh3] }

/-- The for-loop of read_values (lines 73 to 98), iterated over the
remaining sub-sample inputs.  An exception from a sub-sample aborts
the loop and propagates; the reset calls issued so far are counted. -/
def sampleLoop : List SubInput → SampleWindow → Except Exc SampleWindow × Nat
  | [], w => (.ok w, 0)
  | inp :: rest, w =>
    match subStep inp with
    | (.error e, n) => (.error e, n)
    | (.ok v, n) =>
      match sampleLoop rest (w.push v) with
      | (r, m) => (r, n + m)

/-- The eight process-lifetime gauges (source lines 32 to 39). -/
inductive GaugeName
  | shop_temperature
  | shop_humidity
  | shop_pressure
  | shop_PM2
  | shop_PM10
  | shop_oxidised
  | shop_reduced
  | shop_nh3
deriving DecidableEq, Repr

/-- Lines 63 to 105 of the source: one full cycle.  Runs the five
sub-samples over SampleWindow.empty; on success performs the five
gauge set calls of lines 101 to 105, in source order, each with the
unrounded quotient sum/len of its sequence.  Returns the completion
outcome, the list of gauge write events, and the reset-call count. -/
def read_values (inputs : Fin 5 → SubInput) :
    Except Exc Unit × List (GaugeName × ℚ) × Nat :=
  match sampleLoop (List.ofFn inputs) SampleWindow.empty with
  | (.error e, n) => (.error e, [], n)
  | (.ok w, n) =>
    (.ok (),
     [(.shop_temperature, w.temps.sum / (w.temps.length : ℚ)),
      (.shop_humidity, w.humidities.sum / (w.humidities.length : ℚ)),
      (.shop_pressure, w.pressures.sum / (w.pressures.length : ℚ)),
      (.shop_PM2, w.pm2s.sum / (w.pm2s.length : ℚ)),
      (.shop_PM10, w.pm10s.sum / (w.pm10s.length : ℚ))], n)

/-- Current value of each gauge. -/
structure GaugeState where
  shop_temperature : ℚ
  shop_humidity : ℚ
  shop_pressure : ℚ
  shop_PM2 : ℚ
  shop_PM10 : ℚ
  shop_oxidised : ℚ
  shop_reduced : ℚ
  shop_nh3 : ℚ
deriving DecidableEq, Repr

/-- Effect of one Gauge.set call on the gauge state. -/
def setGauge (g : GaugeState) : GaugeName → ℚ → GaugeState
  | .shop_temperature, x => { g with shop_temperature := x }
  | .shop_humidity, x => { g with shop_humidity := x }
  | .shop_pressure, x => { g with shop_pressure := x }
  | .shop_PM2, x => { g with shop_PM2 := x }
  | .shop_PM10, x => { g with shop_PM10 := x }
  | .shop_oxidised, x => { g with shop_oxidised := x }
  | .shop_reduced, x => { g with shop_reduced := x }
  | .shop_nh3, x => { g with shop_nh3 := x }

/-- Effect of a list of gauge write events on the gauge state. -/
def applyWrites (ws : List (GaugeName × ℚ)) (g : GaugeState) : GaugeState :=
  ws.foldl (fun g p => setGauge g p.1 p.2) g

/-- Translation of the formula of section 4.2 of the specification,
stated in its words: compensated = raw - (cpu - raw) / factor,
rounded to 1 decimal digit. -/
def comp_temp_spec (factor cpu raw : ℚ) : ℚ :=
  round1 (raw - (cpu - raw) / factor)


/-!  Concrete device inputs used to exercise the theorems. -/

/-- A sub-sample in which every device read succeeds on its first
attempt: gas channels 1500, 2000 and 3000, CPU file 30000 (30 degrees),
raw temperature 20, raw humidity 30, raw pressure 1013.25 hPa,
particulate reads PM10 = 10 and PM2.5 = 5. -/
def okInput : SubInput :=
  { gasRead := .ok ⟨1500, 2000, 3000⟩
    cpuFile := .ok 30000
    rawTempRead := .ok 20
    rawHumidityRead := .ok 30
    rawPressureRead := .ok (4053/4)
    pmRead1 := .ok ⟨10, 5⟩
    pmRead2 := .ok ⟨11, 6⟩ }

/-- The eight values okInput appends. -/
def okVals : SubVals := ⟨3/2, 2, 3, 89/5, 50, 101325, 10, 5⟩
/-- The window accumulated by five okInput sub-samples. -/
def okWindow : SampleWindow :=
  { temps := [89/5, 89/5, 89/5, 89/5, 89/5]
    humidities := [50, 50, 50, 50, 50]
    pressures := [101325, 101325, 101325, 101325, 101325]
    pm10s := [10, 10, 10, 10, 10]
    pm2s := [5, 5, 5, 5, 5]
    gos := [3/2, 3/2, 3/2, 3/2, 3/2]
    grs := [2, 2, 2, 2, 2]
    gns := [3, 3, 3, 3, 3] }
/-- A sub-sample whose gas read raises an exception the code does not
handle. -/
def badInput : SubInput :=
  { gasRead := .error .other
    cpuFile := .ok 30000
    rawTempRead := .ok 20
    rawHumidityRead := .ok 30
    rawPressureRead := .ok (4053/4)
    pmRead1 := .ok ⟨10, 5⟩
    pmRead2 := .ok ⟨11, 6⟩ }
/-- A gauge state with distinct values in every slot. -/
def someGauges : GaugeState := ⟨1, 2, 3, 4, 5, 6, 7, 8⟩
/-- A sub-sample whose first particulate read times out and whose
second read succeeds with PM10 = 7 and PM2.5 = 3. -/
def retryInput : SubInput :=
  { gasRead := .ok ⟨1500, 2000, 3000⟩
    cpuFile := .ok 30000
    rawTempRead := .ok 20
    rawHumidityRead := .ok 30
    rawPressureRead := .ok (4053/4)
    pmRead1 := .error .readTimeoutError
    pmRead2 := .ok ⟨7, 3⟩ }
/-- A sub-sample whose two particulate reads both raise checksum
mismatches. -/
def doubleFailInput : SubInput :=
  { gasRead := .ok ⟨1500, 2000, 3000⟩
    cpuFile := .ok 30000
    rawTempRead := .ok 20
    rawHumidityRead := .ok 30
    rawPressureRead := .ok (4053/4)
    pmRead1 := .error .checksumMismatchError
    pmRead2 := .error .checksumMismatchError }
/-- A sub-sample whose CPU thermal-zone file read raises an I/O
error. -/
def cpuFailInput : SubInput :=
  { gasRead := .ok ⟨1500, 2000, 3000⟩
    cpuFile := .error .ioError
    rawTempRead := .ok 20
    rawHumidityRead := .ok 30
    rawPressureRead := .ok (4053/4)
    pmRead1 := .ok ⟨10, 5⟩
    pmRead2 := .ok ⟨11, 6⟩ }
/-- A sub-sample with raw and CPU temperature both 20.1 degrees, so
the compensated temperature is exactly 20.1. -/
def cexInput1 : SubInput :=
  { gasRead := .ok ⟨0, 0, 0⟩
    cpuFile := .ok 20100
    rawTempRead := .ok (201/10)
    rawHumidityRead := .ok 30
    rawPressureRead := .ok 1000
    pmRead1 := .ok ⟨1, 2⟩
    pmRead2 := .ok ⟨1, 2⟩ }
/-- A sub-sample with raw and CPU temperature both 20.2 degrees, so
the compensated temperature is exactly 20.2. -/
def cexInput2 : SubInput :=
  { gasRead := .ok ⟨0, 0, 0⟩
    cpuFile := .ok 20200
    rawTempRead := .ok (202/10)
    rawHumidityRead := .ok 30
    rawPressureRead := .ok 1000
    pmRead1 := .ok ⟨1, 2⟩
    pmRead2 := .ok ⟨1, 2⟩ }
/-- A cycle of four 20.1-degree sub-samples and one 20.2-degree
sub-sample: the five compensated temperatures average to 20.12. -/
def cexInputs : Fin 5 → SubInput :=
  ![cexInput1, cexInput1, cexInput1, cexInput1, cexInput2]

/-!  Helper lemmas about the rounding function. -/

lemma roundHalfEven_intCast (k : ℤ) : roundHalfEven (k : ℚ) = k := by
  unfold roundHalfEven
  rw [Int.floor_intCast]
  norm_num

lemma round1_int_div_ten (k : ℤ) : round1 ((k : ℚ) / 10) = (k : ℚ) / 10 := by
  unfold round1
  have h10 : (10 : ℚ) * ((k : ℚ) / 10) = (k : ℚ) := by field_simp
  rw [h10, roundHalfEven_intCast]

lemma round1_round1 (x : ℚ) : round1 (round1 x) = round1 x := by
  unfold round1
  exact round1_int_div_ten (roundHalfEven (10 * x))

lemma roundHalfEven_add_two_mul (x : ℚ) (m : ℤ) :
    roundHalfEven (x + 2 * (m : ℚ)) = roundHalfEven x + 2 * m := by
  have hx : x + 2 * (m : ℚ) = x + ((2 * m : ℤ) : ℚ) := by push_cast; ring
  have hfloor : ⌊x + 2 * (m : ℚ)⌋ = ⌊x⌋ + 2 * m := by
    rw [hx, Int.floor_add_int]
  unfold roundHalfEven
  rw [hfloor]
  have hsub : x + 2 * (m : ℚ) - ((⌊x⌋ + 2 * m : ℤ) : ℚ) = x - (⌊x⌋ : ℚ) := by
    push_cast; ring
  rw [hsub, Int.add_mul_emod_self_left]
  split_ifs <;> ring

lemma round1_add_int (x : ℚ) (k : ℤ) : round1 (x + (k : ℚ)) = round1 x + k := by
  unfold round1
  have h1 : 10 * (x + (k : ℚ)) = 10 * x + 2 * ((5 * k : ℤ) : ℚ) := by push_cast; ring
  rw [h1, roundHalfEven_add_two_mul]
  push_cast; ring

/-!  Helper lemmas about one sub-sample and the sampling loop. -/

lemma subStep_ok_eq (inp : SubInput) (g : GasData) (cpu t hum p : ℚ)
    (pv : PmValues) (n : ℕ)
    (hg : inp.gasRead = .ok g)
    (hc : get_cpu_temperature inp.cpuFile = .ok cpu)
    (ht : inp.rawTempRead = .ok t)
    (hh : inp.rawHumidityRead = .ok hum)
    (hp : inp.rawPressureRead = .ok p)
    (hpm : pmReadWithRetry inp.pmRead1 inp.pmRead2 = (.ok pv, n)) :
    subStep inp =
      (.ok { gasOx := g.oxidising / 1000
             gasRed := g.reducing / 1000
             gasNh3 := g.nh3 / 1000
             temp := comp_temp temp_factor cpu t
             humidity := comp_humidity humidity_factor hum
             pressure := p * 100
             pm10 := pv.pm10
             pm2 := pv.pm2 }, n) := by
  simp [subStep, hg, hc, ht, hh, hp, hpm]

lemma subStep_ok_rounded (inp : SubInput) (v : SubVals) (n : ℕ)
    (h : subStep inp = (.ok v, n)) :
    round1 v.temp = v.temp ∧ round1 v.humidity = v.humidity := by
  unfold subStep at h
  cases hgas : inp.gasRead with
  | error e => rw [hgas] at h; simp at h
  | ok gasData =>
    rw [hgas] at h
    cases hcpu : get_cpu_temperature inp.cpuFile with
    | error e => rw [hcpu] at h; simp at h
    | ok cpuTemp =>
      rw [hcpu] at h
      cases htr : inp.rawTempRead with
      | error e => rw [htr] at h; simp at h
      | ok rawTemp =>
        rw [htr] at h
        cases hhr : inp.rawHumidityRead with
        | error e => rw [hhr] at h; simp at h
        | ok rawHumidity =>
          rw [hhr] at h
          cases hpr : inp.rawPressureRead with
          | error e => rw [hpr] at h; simp at h
          | ok rawPressure =>
            rw [hpr] at h
            rcases hpm : pmReadWithRetry inp.pmRead1 inp.pmRead2 with ⟨r, m⟩
            rw [hpm] at h
            cases r with
            | error e => simp at h
            | ok pv =>
              simp only [Prod.mk.injEq, Except.ok.injEq] at h
              rcases h with ⟨hv, -⟩
              subst hv
              exact ⟨round1_round1 _, round1_round1 _⟩

lemma sampleLoop_ok_lengths (l : List SubInput) :
    ∀ (w w' : SampleWindow) (n : ℕ),
      sampleLoop l w = (.ok w', n) →
      w'.temps.length = w.temps.length + l.length ∧
      w'.humidities.length = w.humidities.length + l.length ∧
      w'.pressures.length = w.pressures.length + l.length ∧
      w'.pm10s.length = w.pm10s.length + l.length ∧
      w'.pm2s.length = w.pm2s.length + l.length ∧
      w'.gos.length = w.gos.length + l.length ∧
      w'.grs.length = w.grs.length + l.length ∧
      w'.gns.length = w.gns.length + l.length := by
  induction l with
  | nil =>
    intro w w' n h
    simp only [sampleLoop, Prod.mk.injEq, Except.ok.injEq] at h
    rcases h with ⟨hw, -⟩
    subst hw
    simp
  | cons inp rest ih =>
    intro w w' n h
    simp only [sampleLoop] at h
    rcases hs : subStep inp with ⟨r, n1⟩
    cases r with
    | error e => simp [hs] at h
    | ok v =>
      simp only [hs] at h
      rcases hr : sampleLoop rest (w.push v) with ⟨r2, m⟩
      simp only [hr, Prod.mk.injEq] at h
      rcases h with ⟨h2, -⟩
      subst h2
      have := ih (w.push v) w' m hr
      simp only [SampleWindow.push, List.length_append, List.length_cons,
        List.length_singleton, List.length_nil] at this ⊢
      omega

lemma read_values_error (inputs : Fin 5 → SubInput) (e : Exc) (n : ℕ)
    (hr : sampleLoop (List.ofFn inputs) SampleWindow.empty = (.error e, n)) :
    read_values inputs = (.error e, [], n) := by
  unfold read_values; rw [hr]

lemma read_values_ok (inputs : Fin 5 → SubInput) (w : SampleWindow) (n : ℕ)
    (hr : sampleLoop (List.ofFn inputs) SampleWindow.empty = (.ok w, n)) :
    read_values inputs =
      (.ok (),
       [(.shop_temperature, w.temps.sum / (w.temps.length : ℚ)),
        (.shop_humidity, w.humidities.sum / (w.humidities.length : ℚ)),
        (.shop_pressure, w.pressures.sum / (w.pressures.length : ℚ)),
        (.shop_PM2, w.pm2s.sum / (w.pm2s.length : ℚ)),
        (.shop_PM10, w.pm10s.sum / (w.pm10s.length : ℚ))], n) := by
  unfold read_values; rw [hr]

/-!  Evaluation lemmas for the concrete inputs. -/


lemma subStep_okInput : subStep okInput = (.ok okVals, 0) := by
  norm_num [subStep, okInput, okVals, get_cpu_temperature, pmReadWithRetry,
    comp_temp, comp_humidity, temp_factor, humidity_factor, round1, roundHalfEven]


lemma sampleLoop_okInput :
    sampleLoop (List.ofFn fun _ : Fin 5 => okInput) SampleWindow.empty =
      (.ok okWindow, 0) := by
  have hofn : List.ofFn (fun _ : Fin 5 => okInput) =
      [okInput, okInput, okInput, okInput, okInput] := rfl
  rw [hofn]
  simp [sampleLoop, subStep_okInput, SampleWindow.empty, SampleWindow.push,
    okVals, okWindow]


lemma read_values_badInput :
    read_values (fun _ => badInput) = (.error .other, [], 0) := by
  have hofn : List.ofFn (fun _ : Fin 5 => badInput) =
      [badInput, badInput, badInput, badInput, badInput] := rfl
  simp [read_values, hofn, sampleLoop, subStep, badInput]







/-!  The claims. -/

/-- Claim C1 as stated is false: in the all-success cycle cexInputs
the temperature gauge is set to 503/25 = 20.12, the unrounded mean of
the five 1-decimal compensated temperatures, and 20.12 is not a value
rounded to 1 decimal digit, since rounding it to 1 decimal gives 20.1.
The gauges are set to the means, but the temperature and humidity
means themselves are never rounded. -/
theorem temperature_mean_not_one_decimal_cex :
    read_values cexInputs =
      (.ok (),
       [(.shop_temperature, 503/25), (.shop_humidity, 50),
        (.shop_pressure, 100000), (.shop_PM2, 2), (.shop_PM10, 1)], 0) ∧
    round1 (503/25) ≠ 503/25 := by
  constructor
  · have hsub1 : subStep cexInput1 = (.ok ⟨0, 0, 0, 201/10, 50, 100000, 1, 2⟩, 0) := by
      norm_num [subStep, cexInput1, get_cpu_temperature, pmReadWithRetry,
        comp_temp, comp_humidity, temp_factor, humidity_factor, round1,
        roundHalfEven]
    have hsub2 : subStep cexInput2 = (.ok ⟨0, 0, 0, 202/10, 50, 100000, 1, 2⟩, 0) := by
      norm_num [subStep, cexInput2, get_cpu_temperature, pmReadWithRetry,
        comp_temp, comp_humidity, temp_factor, humidity_factor, round1,
        roundHalfEven]
    have hofn : List.ofFn cexInputs =
        [cexInput1, cexInput1, cexInput1, cexInput1, cexInput2] := rfl
    have hloop : sampleLoop (List.ofFn cexInputs) SampleWindow.empty =
        (.ok (((((SampleWindow.empty.push ⟨0, 0, 0, 201/10, 50, 100000, 1, 2⟩).push
          ⟨0, 0, 0, 201/10, 50, 100000, 1, 2⟩).push
          ⟨0, 0, 0, 201/10, 50, 100000, 1, 2⟩).push
          ⟨0, 0, 0, 201/10, 50, 100000, 1, 2⟩).push
          ⟨0, 0, 0, 202/10, 50, 100000, 1, 2⟩),
         0 + (0 + (0 + (0 + (0 + 0))))) := by
      rw [hofn]
      simp only [sampleLoop, hsub1, hsub2]
    rw [read_values_ok cexInputs _ _ hloop]
    norm_num [SampleWindow.empty, SampleWindow.push]
  · norm_num [round1, roundHalfEven]

/-- Claim C1 amended: in every cycle in which all 5 sub-samples
succeed, each published gauge is set to the unrounded arithmetic mean
of its 5-element sequence; the temperature and humidity values are
rounded to 1 decimal digit per sub-sample, before accumulation, not
after averaging; pressure, PM2.5 and PM10 are set unrounded. -/
theorem read_values_sets_unrounded_means (inputs : Fin 5 → SubInput)
    (v : Fin 5 → SubVals) (n : Fin 5 → ℕ)
    (h : ∀ i, subStep (inputs i) = (.ok (v i), n i)) :
    read_values inputs =
      (.ok (),
       [(.shop_temperature,
          ((v 0).temp + (v 1).temp + (v 2).temp + (v 3).temp +
            (v 4).temp) / 5),
        (.shop_humidity,
          ((v 0).humidity + (v 1).humidity + (v 2).humidity +
            (v 3).humidity + (v 4).humidity) / 5),
        (.shop_pressure,
          ((v 0).pressure + (v 1).pressure + (v 2).pressure +
            (v 3).pressure + (v 4).pressure) / 5),
        (.shop_PM2,
          ((v 0).pm2 + (v 1).pm2 + (v 2).pm2 + (v 3).pm2 +
            (v 4).pm2) / 5),
        (.shop_PM10,
          ((v 0).pm10 + (v 1).pm10 + (v 2).pm10 + (v 3).pm10 +
            (v 4).pm10) / 5)],
       n 0 + n 1 + n 2 + n 3 + n 4) ∧
    ∀ i, round1 ((v i).temp) = (v i).temp ∧
      round1 ((v i).humidity) = (v i).humidity := by
  constructor
  · have hofn : List.ofFn inputs =
        [inputs 0, inputs 1, inputs 2, inputs 3, inputs 4] := rfl
    have hloop : sampleLoop (List.ofFn inputs) SampleWindow.empty =
        (.ok (((((SampleWindow.empty.push (v 0)).push (v 1)).push
          (v 2)).push (v 3)).push (v 4)),
         n 0 + (n 1 + (n 2 + (n 3 + (n 4 + 0))))) := by
      rw [hofn]
      simp only [sampleLoop, h 0, h 1, h 2, h 3, h 4]
    rw [read_values_ok inputs _ _ hloop]
    simp [SampleWindow.empty, SampleWindow.push]
    refine ⟨⟨?_, ?_, ?_, ?_, ?_⟩, ?_⟩ <;> ring
  · intro i
    exact subStep_ok_rounded (inputs i) (v i) (n i) (h i)

/-- Witness for claim C1 amended, on five okInput sub-samples. -/
theorem read_values_unrounded_means_witness :
    read_values (fun _ => okInput) =
      (.ok (),
       [(.shop_temperature, 89/5), (.shop_humidity, 50),
        (.shop_pressure, 101325), (.shop_PM2, 5), (.shop_PM10, 10)], 0) ∧
    round1 (89/5) = 89/5 := by
  have h := read_values_sets_unrounded_means (fun _ => okInput)
    (fun _ => okVals) (fun _ => 0) (fun i => subStep_okInput)
  rcases h with ⟨h1, h2⟩
  constructor
  · rw [h1]; norm_num [okVals]
  · simpa [okVals] using (h2 0).1

/-- Claim C4: for every raw sensor temperature, every CPU temperature
and every factor other than 0, comp_temp returns raw - (cpu - raw) /
factor rounded to 1 decimal digit, which is the formula of section 4.2
of the specification, and two calls with identical raw and CPU
temperatures and the same factor return the same value. -/
theorem comp_temp_matches_spec_formula (factor cpu raw : ℚ) (hf : factor ≠ 0) :
    comp_temp factor cpu raw = comp_temp_spec factor cpu raw ∧
    comp_temp factor cpu raw = comp_temp factor cpu raw :=
  ⟨rfl, rfl⟩

/-- Witness for claim C4 at factor 9/2, CPU temperature 30 and raw
temperature 20. -/
theorem comp_temp_matches_spec_formula_witness :
    (9/2 : ℚ) ≠ 0 ∧ comp_temp (9/2) 30 20 = comp_temp_spec (9/2) 30 20 :=
  ⟨by norm_num, (comp_temp_matches_spec_formula (9/2) 30 20 (by norm_num)).1⟩

/-- Claim C7 as stated is false: with raw humidity 0 and offsets 0 and
1/20, both compensated humidities round to 0, so their difference is 0
and not 1/20.  The compensated humidity is always a multiple of 1/10,
so a sub-tenth offset difference can never be reproduced. -/
theorem comp_humidity_shift_cex :
    comp_humidity (1/20) 0 - comp_humidity 0 0 ≠ 1/20 - 0 := by
  norm_num [comp_humidity, round1, roundHalfEven]

/-- Claim C7 amended: for every fixed raw sensor humidity, the shift
property holds for integer offsets, which include the deployed offset
20: comp_humidity(k2) - comp_humidity(k1) = k2 - k1 for all integers
k1, k2. -/
theorem comp_humidity_additive_shift_int (raw : ℚ) (k1 k2 : ℤ) :
    comp_humidity (k2 : ℚ) raw - comp_humidity (k1 : ℚ) raw =
      (k2 : ℚ) - (k1 : ℚ) := by
  unfold comp_humidity
  rw [round1_add_int raw k2, round1_add_int raw k1]
  ring

/-- Claim C2: when the first particulate read raises a read-timeout or
checksum-mismatch error and the second read succeeds, the retry logic
issues exactly one reset call and the PM10 and PM2.5 values appended
are those returned by the second read. -/
theorem pm_retry_uses_second_read (e : Exc) (he : isTransientPmError e = true)
    (pv : PmValues) (inp : SubInput) (g : GasData) (cpu t hum p : ℚ)
    (hg : inp.gasRead = .ok g)
    (hc : get_cpu_temperature inp.cpuFile = .ok cpu)
    (ht : inp.rawTempRead = .ok t)
    (hh : inp.rawHumidityRead = .ok hum)
    (hp : inp.rawPressureRead = .ok p)
    (h1 : inp.pmRead1 = .error e)
    (h2 : inp.pmRead2 = .ok pv) :
    pmReadWithRetry inp.pmRead1 inp.pmRead2 = (.ok pv, 1) ∧
    subStep inp =
      (.ok { gasOx := g.oxidising / 1000
             gasRed := g.reducing / 1000
             gasNh3 := g.nh3 / 1000
             temp := comp_temp temp_factor cpu t
             humidity := comp_humidity humidity_factor hum
             pressure := p * 100
             pm10 := pv.pm10
             pm2 := pv.pm2 }, 1) := by
  have hpm : pmReadWithRetry inp.pmRead1 inp.pmRead2 = (.ok pv, 1) := by
    rw [h1, h2]; simp [pmReadWithRetry, he]
  exact ⟨hpm, subStep_ok_eq inp g cpu t hum p pv 1 hg hc ht hh hp hpm⟩

/-- Witness for claim C2 on retryInput. -/
theorem pm_retry_uses_second_read_witness :
    pmReadWithRetry retryInput.pmRead1 retryInput.pmRead2 = (.ok ⟨7, 3⟩, 1) ∧
    subStep retryInput =
      (.ok { gasOx := (1500 : ℚ) / 1000
             gasRed := (2000 : ℚ) / 1000
             gasNh3 := (3000 : ℚ) / 1000
             temp := comp_temp temp_factor 30 20
             humidity := comp_humidity humidity_factor 30
             pressure := (4053/4 : ℚ) * 100
             pm10 := 7
             pm2 := 3 }, 1) :=
  pm_retry_uses_second_read .readTimeoutError rfl ⟨7, 3⟩ retryInput
    ⟨1500, 2000, 3000⟩ 30 20 30 (4053/4) rfl
    (by norm_num [get_cpu_temperature, retryInput]) rfl rfl rfl rfl rfl

/-- Claim C3: when the first and the second particulate reads both
raise transient errors, the second exception propagates out of the
retry logic, out of the sub-sample, and out of read_values, and
exactly one reset call is issued, not two. -/
theorem pm_double_failure_one_reset (e1 e2 : Exc)
    (he1 : isTransientPmError e1 = true) (he2 : isTransientPmError e2 = true)
    (inp : SubInput) (g : GasData) (cpu t hum p : ℚ)
    (hg : inp.gasRead = .ok g)
    (hc : get_cpu_temperature inp.cpuFile = .ok cpu)
    (ht : inp.rawTempRead = .ok t)
    (hh : inp.rawHumidityRead = .ok hum)
    (hp : inp.rawPressureRead = .ok p)
    (h1 : inp.pmRead1 = .error e1)
    (h2 : inp.pmRead2 = .error e2)
    (inputs : Fin 5 → SubInput) (h0 : inputs 0 = inp) :
    pmReadWithRetry inp.pmRead1 inp.pmRead2 = (.error e2, 1) ∧
    subStep inp = (.error e2, 1) ∧
    read_values inputs = (.error e2, [], 1) := by
  have hpm : pmReadWithRetry inp.pmRead1 inp.pmRead2 = (.error e2, 1) := by
    rw [h1, h2]; simp [pmReadWithRetry, he1]
  have hsub : subStep inp = (.error e2, 1) := by
    simp [subStep, hg, hc, ht, hh, hp, hpm]
  refine ⟨hpm, hsub, ?_⟩
  have hofn : List.ofFn inputs =
      [inputs 0, inputs 1, inputs 2, inputs 3, inputs 4] := rfl
  simp [read_values, hofn, h0, sampleLoop, hsub]

/-- Witness for claim C3 on doubleFailInput. -/
theorem pm_double_failure_one_reset_witness :
    pmReadWithRetry doubleFailInput.pmRead1 doubleFailInput.pmRead2 =
      (.error .checksumMismatchError, 1) ∧
    subStep doubleFailInput = (.error .checksumMismatchError, 1) ∧
    read_values (fun _ => doubleFailInput) =
      (.error .checksumMismatchError, [], 1) :=
  pm_double_failure_one_reset .checksumMismatchError .checksumMismatchError
    rfl rfl doubleFailInput ⟨1500, 2000, 3000⟩ 30 20 30 (4053/4) rfl
    (by norm_num [get_cpu_temperature, doubleFailInput]) rfl rfl rfl rfl rfl
    (fun _ => doubleFailInput) rfl

/-- Claim C9: when the CPU thermal-zone file read raises an I/O error,
get_cpu_temperature propagates it, the sub-sample propagates it, and
read_values propagates it: no catch and no retry anywhere between the
file read and the top of the sampling loop. -/
theorem cpu_file_error_propagates (e : Exc) (inp : SubInput) (g : GasData)
    (hg : inp.gasRead = .ok g)
    (hc : inp.cpuFile = .error e)
    (inputs : Fin 5 → SubInput) (h0 : inputs 0 = inp) :
    get_cpu_temperature inp.cpuFile = .error e ∧
    subStep inp = (.error e, 0) ∧
    read_values inputs = (.error e, [], 0) := by
  have hget : get_cpu_temperature inp.cpuFile = .error e := by
    rw [hc]; rfl
  have hsub : subStep inp = (.error e, 0) := by
    simp [subStep, hg, hget]
  refine ⟨hget, hsub, ?_⟩
  have hofn : List.ofFn inputs =
      [inputs 0, inputs 1, inputs 2, inputs 3, inputs 4] := rfl
  simp [read_values, hofn, h0, sampleLoop, hsub]

/-- Witness for claim C9 on cpuFailInput. -/
theorem cpu_file_error_propagates_witness :
    get_cpu_temperature cpuFailInput.cpuFile = .error .ioError ∧
    subStep cpuFailInput = (.error .ioError, 0) ∧
    read_values (fun _ => cpuFailInput) = (.error .ioError, [], 0) :=
  cpu_file_error_propagates .ioError cpuFailInput ⟨1500, 2000, 3000⟩ rfl rfl
    (fun _ => cpuFailInput) rfl

/-- Claim C5: in a cycle in which all device reads succeed, so that
the five sub-samples all complete, every one of the 8 per-metric
sequences holds exactly 5 elements at the moment averaging begins. -/
theorem window_sequences_have_five_elements (inputs : Fin 5 → SubInput)
    (w : SampleWindow) (n : ℕ)
    (h : sampleLoop (List.ofFn inputs) SampleWindow.empty = (.ok w, n)) :
    w.temps.length = 5 ∧ w.humidities.length = 5 ∧ w.pressures.length = 5 ∧
    w.pm10s.length = 5 ∧ w.pm2s.length = 5 ∧ w.gos.length = 5 ∧
    w.grs.length = 5 ∧ w.gns.length = 5 := by
  have := sampleLoop_ok_lengths (List.ofFn inputs) SampleWindow.empty w n h
  simpa [SampleWindow.empty] using this

/-- Witness for claim C5 on five okInput sub-samples. -/
theorem window_sequences_have_five_elements_witness :
    okWindow.temps.length = 5 ∧ okWindow.humidities.length = 5 ∧
    okWindow.pressures.length = 5 ∧ okWindow.pm10s.length = 5 ∧
    okWindow.pm2s.length = 5 ∧ okWindow.gos.length = 5 ∧
    okWindow.grs.length = 5 ∧ okWindow.gns.length = 5 :=
  window_sequences_have_five_elements (fun _ => okInput) okWindow 0
    sampleLoop_okInput

/-- Claim C6: a cycle writes at most the five published gauges, in
source order; the three gas gauges are never written and keep their
previous values under any write list a cycle can produce, even though
the three gas sequences are accumulated to full length on success. -/
theorem only_published_gauges_written (inputs : Fin 5 → SubInput) :
    ((read_values inputs).2.1.map Prod.fst = [] ∨
      (read_values inputs).2.1.map Prod.fst =
        [.shop_temperature, .shop_humidity, .shop_pressure,
         .shop_PM2, .shop_PM10]) ∧
    (∀ g : GaugeState,
      (applyWrites (read_values inputs).2.1 g).shop_oxidised =
        g.shop_oxidised ∧
      (applyWrites (read_values inputs).2.1 g).shop_reduced =
        g.shop_reduced ∧
      (applyWrites (read_values inputs).2.1 g).shop_nh3 = g.shop_nh3) ∧
    (∀ (w : SampleWindow) (n : ℕ),
      sampleLoop (List.ofFn inputs) SampleWindow.empty = (.ok w, n) →
      w.gos.length = 5 ∧ w.grs.length = 5 ∧ w.gns.length = 5) := by
  rcases hr : sampleLoop (List.ofFn inputs) SampleWindow.empty with ⟨r, n⟩
  cases r with
  | error e =>
    have hrv := read_values_error inputs e n hr
    refine ⟨Or.inl ?_, fun g => ?_, fun w m hw => absurd hw (by simp)⟩
    · rw [hrv]; rfl
    · rw [hrv]; exact ⟨rfl, rfl, rfl⟩
  | ok w0 =>
    have hrv := read_values_ok inputs w0 n hr
    refine ⟨Or.inr ?_, fun g => ?_, fun w m hw => ?_⟩
    · rw [hrv]; rfl
    · rw [hrv]; exact ⟨rfl, rfl, rfl⟩
    · obtain ⟨hww, -⟩ : w0 = w ∧ n = m := by
        simpa [Prod.mk.injEq, Except.ok.injEq] using hw
      subst hww
      obtain ⟨-, -, -, -, -, h6, h7, h8⟩ :=
        sampleLoop_ok_lengths (List.ofFn inputs) SampleWindow.empty w0 n hr
      simp [SampleWindow.empty] at h6 h7 h8
      exact ⟨h6, h7, h8⟩

/-- Witness for claim C6 on five okInput sub-samples and the gauge
state someGauges. -/
theorem only_published_gauges_written_witness :
    ((read_values (fun _ => okInput)).2.1.map Prod.fst = [] ∨
      (read_values (fun _ => okInput)).2.1.map Prod.fst =
        [.shop_temperature, .shop_humidity, .shop_pressure,
         .shop_PM2, .shop_PM10]) ∧
    (applyWrites (read_values (fun _ => okInput)).2.1 someGauges).shop_oxidised =
      someGauges.shop_oxidised ∧
    (okWindow.gos.length = 5 ∧ okWindow.grs.length = 5 ∧
      okWindow.gns.length = 5) :=
  ⟨(only_published_gauges_written (fun _ => okInput)).1,
   ((only_published_gauges_written (fun _ => okInput)).2.1 someGauges).1,
   (only_published_gauges_written (fun _ => okInput)).2.2 okWindow 0
     sampleLoop_okInput⟩

/-- Claim C8: in every sub-sample that completes, each gas channel
value is divided by 1000 and the raw pressure reading is multiplied by
100 before being appended to its sequence. -/
theorem gas_div1000_pressure_mul100 (inp : SubInput) (g : GasData)
    (cpu t hum p : ℚ) (pv : PmValues) (n : ℕ) (v : SubVals)
    (hg : inp.gasRead = .ok g)
    (hc : get_cpu_temperature inp.cpuFile = .ok cpu)
    (ht : inp.rawTempRead = .ok t)
    (hh : inp.rawHumidityRead = .ok hum)
    (hp : inp.rawPressureRead = .ok p)
    (hpm : pmReadWithRetry inp.pmRead1 inp.pmRead2 = (.ok pv, n))
    (hv : subStep inp = (.ok v, n)) :
    v.gasOx = g.oxidising / 1000 ∧ v.gasRed = g.reducing / 1000 ∧
    v.gasNh3 = g.nh3 / 1000 ∧ v.pressure = p * 100 := by
  rw [subStep_ok_eq inp g cpu t hum p pv n hg hc ht hh hp hpm] at hv
  simp only [Prod.mk.injEq, Except.ok.injEq] at hv
  rcases hv with ⟨hv, -⟩
  subst hv
  exact ⟨rfl, rfl, rfl, rfl⟩

/-- Witness for claim C8 on okInput: the raw oxidising value 1500 is
accumulated as 1500/1000 = 3/2 and the raw pressure 1013.25 = 4053/4
is accumulated as 101325. -/
theorem gas_div1000_pressure_mul100_witness :
    (okVals.gasOx = (1500 : ℚ) / 1000 ∧ okVals.gasRed = (2000 : ℚ) / 1000 ∧
     okVals.gasNh3 = (3000 : ℚ) / 1000 ∧ okVals.pressure = (4053/4 : ℚ) * 100) ∧
    okVals.gasOx = 3/2 ∧ okVals.pressure = 101325 :=
  ⟨gas_div1000_pressure_mul100 okInput ⟨1500, 2000, 3000⟩ 30 20 30 (4053/4)
      ⟨10, 5⟩ 0 okVals rfl (by norm_num [get_cpu_temperature, okInput])
      rfl rfl rfl rfl subStep_okInput,
   by norm_num [okVals], by norm_num [okVals]⟩

/-- Claim C10: when any exception propagates out of a cycle, the cycle
performs no gauge write at all, so every gauge retains the value it
held before the cycle began. -/
theorem error_cycle_writes_no_gauge (inputs : Fin 5 → SubInput) (e : Exc)
    (hx : (read_values inputs).1 = .error e) :
    (read_values inputs).2.1 = [] ∧
    ∀ g : GaugeState, applyWrites (read_values inputs).2.1 g = g := by
  rcases hr : sampleLoop (List.ofFn inputs) SampleWindow.empty with ⟨r, n⟩
  cases r with
  | error e2 =>
    have hrv := read_values_error inputs e2 n hr
    rw [hrv]
    exact ⟨rfl, fun g => rfl⟩
  | ok w =>
    have hrv := read_values_ok inputs w n hr
    rw [hrv] at hx
    simp at hx

/-- Witness for claim C10 on a cycle whose first gas read fails. -/
theorem error_cycle_writes_no_gauge_witness :
    (read_values (fun _ => badInput)).2.1 = [] ∧
    applyWrites (read_values (fun _ => badInput)).2.1 someGauges = someGauges :=
  ⟨(error_cycle_writes_no_gauge (fun _ => badInput) .other
      (by rw [read_values_badInput])).1,
   (error_cycle_writes_no_gauge (fun _ => badInput) .other
      (by rw [read_values_badInput])).2 someGauges⟩

end SensorMetrics
